import Mathlib

/-!
Shallow embedding of the weather relay backend (src/backend/main.py):
a FastAPI application with three GET endpoints, each forwarding to a
fixed upstream HTTP API.

Modelling conventions:
* Numeric query parameters are modelled as exact rationals.  The code
  performs no arithmetic on them, only type coercion and pass-through,
  so the floating-point representation is irrelevant to every claim.
* A decoded JSON document is an inductive `Json` value.  The result of
  calling `.json()` on an HTTP response is modelled as `Option Json`:
  `some j` when the body is valid JSON, `none` when decoding raises.
* An upstream HTTP exchange is an explicit function argument of the
  handler, so that theorems quantify over every upstream behaviour.
* Python exceptions escaping a handler are the `Except.error` branch.
-/

/-- Decoded JSON documents. -/
inductive Json where
  | null : Json
  | bool (b : Bool) : Json
  | num (q : Rat) : Json
  | str (s : String) : Json
  | arr (elems : List Json) : Json
  | obj (fields : List (String × Json)) : Json

/-- An upstream HTTP response as seen by the handlers: the status code,
the raw body text (Python `r.text`), and the outcome of JSON-decoding
the body (Python `r.json()`, which raises when the body is not valid
JSON, modelled by `none`). -/
structure Response where
  status_code : Nat
  text : String
  jsonBody : Option Json

/-- A Python exception escaping a handler. -/
inductive PyExn where
  | jsonDecodeError : PyExn
  | networkError : PyExn
deriving DecidableEq

/-- The standard HTTP success class: any 2xx status. -/
def isHTTPSuccess (s : Nat) : Bool :=
  decide (200 ≤ s) && decide (s < 300)

/-- Fixed upstream forecast endpoint of the weather relay
(main.py line 19). -/
def weatherURL : String := "https://api.open-meteo.com/v1/forecast"

/-- The query-parameter dictionary built by `get_weather`
(main.py lines 20-52), field for field. -/
structure WeatherParams where
  latitude : Rat
  longitude : Rat
  current : String
  hourly : String
  daily : String
  forecast_days : Nat
  timezone : String

/-- Construction of the outbound parameter dictionary of `get_weather`
(main.py lines 20-52): the hardcoded current, hourly and daily field
lists are comma-joined exactly as in the source. -/
def weatherParams (lat lon : Rat) (tz : String) : WeatherParams :=
  { latitude := lat
    longitude := lon
    current := String.intercalate "," [
      "temperature_2m",
      "apparent_temperature",
      "relative_humidity_2m",
      "is_day",
      "precipitation",
      "wind_speed_10m",
      "wind_direction_10m",
      "weather_code",
      "surface_pressure",
      "cloud_cover"]
    hourly := String.intercalate "," [
      "temperature_2m",
      "relative_humidity_2m",
      "precipitation",
      "cloud_cover",
      "wind_speed_10m"]
    daily := String.intercalate "," [
      "temperature_2m_max",
      "temperature_2m_min",
      "uv_index_max",
      "sunrise",
      "sunset",
      "precipitation_sum"]
    forecast_days := 7
    timezone := tz }

/-- Default of the optional `tz` query parameter in the signature of
`get_weather` (main.py line 18). -/
def tzDefault : String := "auto"

/-- The error envelope dictionary returned by `get_weather` on a
non-200 upstream status (main.py line 56). -/
def errorEnvelope (reason : String) : Json :=
  Json.obj [("error", Json.bool true), ("reason", Json.str reason)]

/-- Body of `get_weather` after the upstream response `r` has arrived
(main.py lines 55-58): a status other than 200 yields the error
envelope built from the raw body text; on status 200 the decoded JSON
document is returned, and the decode step raises when the body is not
valid JSON. -/
def get_weather_handle (r : Response) : Except PyExn Json :=
  if r.status_code ≠ 200 then
    Except.ok (errorEnvelope r.text)
  else
    match r.jsonBody with
    | some j => Except.ok j
    | none => Except.error PyExn.jsonDecodeError

/-- The `/weather` handler (main.py lines 17-58): builds the parameter
dictionary, performs the blocking upstream call (the upstream is an
explicit function of the request actually sent), then post-processes
the response. -/
def get_weather (upstream : String → WeatherParams → Response)
    (lat lon : Rat) (tz : String) : Except PyExn Json :=
  get_weather_handle (upstream weatherURL (weatherParams lat lon tz))

/-- The HTTP response the relay itself sends for a handler outcome,
as the framework behaves by default: a value returned from a handler
is serialised with status 200; an exception escaping a handler turns
into a generic internal-server-error response with status 500. -/
def relayResponse (outcome : Except PyExn Json) : Nat × Json :=
  match outcome with
  | Except.ok j => (200, j)
  | Except.error _ => (500, Json.obj [("detail", Json.str "Internal Server Error")])

/-- Rendering of a numeric value inside a Python f-string.  The exact
digit format of the rendering is irrelevant to every claim (a numeric
rendering never contains URL metacharacters); what matters is that the
rendered text is spliced into the URL with no percent-encoding. -/
def pyStr (x : Rat) : String := toString x

/-- The upstream URL built by `reverse_geocode` (main.py line 63):
raw f-string interpolation of the coordinates, no percent-encoding. -/
def reverseURL (lat lon : Rat) : String :=
  "https://nominatim.openstreetmap.org/reverse?format=json&lat=" ++ pyStr lat
    ++ "&lon=" ++ pyStr lon

/-- The upstream URL built by `search_places` (main.py line 70):
raw f-string interpolation of the query text, no percent-encoding. -/
def searchURL (q : String) : String :=
  "https://nominatim.openstreetmap.org/search?format=json&q=" ++ q ++ "&limit=5"

/-- An outbound request of the non-blocking client: target URL plus
the request headers passed to the call. -/
structure HttpxRequest where
  url : String
  headers : List (String × String)

/-- The identifying header both nominatim relays send
(main.py lines 65 and 72). -/
def userAgentHeader : String × String := ("User-Agent", "WeatherApp/1.0")

/-- The outbound request of `/api/reverse` (main.py lines 63-65). -/
def reverseRequest (lat lon : Rat) : HttpxRequest :=
  { url := reverseURL lat lon, headers := [userAgentHeader] }

/-- The outbound request of `/api/search` (main.py lines 70-72). -/
def searchRequest (q : String) : HttpxRequest :=
  { url := searchURL q, headers := [userAgentHeader] }

/-- Shared body shape of the two nominatim handlers: perform the
upstream exchange (`Except.error` models a network failure raised by
the client call) and return `r.json()` with no status check and no
exception handling (main.py lines 64-66 and 71-73). -/
def relayJson (upstream : HttpxRequest → Except Unit Response)
    (req : HttpxRequest) : Except PyExn Json :=
  match upstream req with
  | Except.error _ => Except.error PyExn.networkError
  | Except.ok r =>
      match r.jsonBody with
      | some j => Except.ok j
      | none => Except.error PyExn.jsonDecodeError

/-- The `/api/reverse` handler (main.py lines 61-66). -/
def reverse_geocode (upstream : HttpxRequest → Except Unit Response)
    (lat lon : Rat) : Except PyExn Json :=
  relayJson upstream (reverseRequest lat lon)

/-- The `/api/search` handler (main.py lines 68-73). -/
def search_places (upstream : HttpxRequest → Except Unit Response)
    (q : String) : Except PyExn Json :=
  relayJson upstream (searchRequest q)

/-- The cross-origin configuration object passed to the middleware
(main.py lines 9-15), field for field. -/
structure CORSConfig where
  allow_origins : List String
  allow_credentials : Bool
  allow_methods : List String
  allow_headers : List String
deriving DecidableEq

/-- The configuration installed by `app.add_middleware`
(main.py lines 9-15). -/
def corsConfig : CORSConfig :=
  { allow_origins := ["*"]
    allow_credentials := true
    allow_methods := ["*"]
    allow_headers := ["*"] }

/-- A middleware installed on the application. -/
inductive Middleware where
  | cors (cfg : CORSConfig) : Middleware
deriving DecidableEq

/-- The application: its installed middleware stack and its routes. -/
structure App where
  middlewares : List Middleware
  routes : List String

/-- The application assembled by main.py: one middleware registration
(lines 9-15) and the three registered routes (lines 17, 61, 68). -/
def app : App :=
  { middlewares := [Middleware.cors corsConfig]
    routes := ["/weather", "/api/reverse", "/api/search"] }

/-- The middleware stack a request to a given route passes through.
`add_middleware` installs at the application level, wrapping the whole
router, so the stack is the same for every route and does not depend
on which route is matched. -/
def middlewareOn (a : App) (route : String) : List Middleware :=
  a.middlewares

/-- Split a character list at every occurrence of a separator. -/
def splitChar (sep : Char) : List Char → List Char × List (List Char)
  | [] => ([], [])
  | c :: cs =>
      let rest := splitChar sep cs
      if c = sep then ([], rest.1 :: rest.2) else (c :: rest.1, rest.2)

/-- The query component of a URL: everything after the first
question mark. -/
def queryOf (url : String) : List Char :=
  (url.data.dropWhile (fun c => ¬ (c = '?'))).drop 1

/-- The key-value pairs an upstream server reads off a URL: split the
query component on ampersands, then each item at its first equals
sign. -/
def queryPairs (url : String) : List (String × String) :=
  let items := (splitChar '&' (queryOf url)).1 :: (splitChar '&' (queryOf url)).2
  items.map fun item =>
    (String.mk (item.takeWhile (fun c => ¬ (c = '='))),
     String.mk ((item.dropWhile (fun c => ¬ (c = '='))).drop 1))

example : get_weather_handle ⟨500, "boom", none⟩ = Except.ok (errorEnvelope "boom") := rfl
example : get_weather_handle ⟨200, "[]", some (Json.arr [])⟩ = Except.ok (Json.arr []) := rfl
example : get_weather_handle ⟨200, "x", none⟩ = Except.error PyExn.jsonDecodeError := rfl
example :
    queryPairs (searchURL "Berlin&limit=50") =
      [("format", "json"), ("q", "Berlin"), ("limit", "50"), ("limit", "5")] := by
  decide

/-- C1 (counterexample): the claim ties the error envelope to the HTTP
success class, but the code branches on status 200 exactly.  Upstream
status 201 is a success status, yet the handler returns the error
envelope instead of the decoded upstream JSON document. -/
theorem weather_envelope_not_success_counterexample :
    isHTTPSuccess 201 = true ∧
    get_weather_handle ⟨201, "created", some (Json.str "doc")⟩ ≠ Except.ok (Json.str "doc") ∧
    get_weather_handle ⟨201, "created", some (Json.str "doc")⟩ =
      Except.ok (errorEnvelope "created") := by
  refine ⟨by decide, ?_, rfl⟩
  intro h
  exact Json.noConfusion (Except.ok.inj h)

/-- C1 (amended): the handler returns the error envelope built from
the raw body text exactly on upstream status other than 200; on status
200 with a JSON-decodable body it returns the decoded upstream
document unmodified. -/
theorem weather_envelope_status200 (r : Response) :
    (r.status_code ≠ 200 → get_weather_handle r = Except.ok (errorEnvelope r.text)) ∧
    (∀ j, r.status_code = 200 → r.jsonBody = some j →
      get_weather_handle r = Except.ok j) := by
  constructor
  · intro h
    simp [get_weather_handle, h]
  · intro j h hj
    simp [get_weather_handle, h, hj]

/-- C1 witness: the amended theorem evaluated at a 404 response and at
a 200 response carrying a JSON body. -/
theorem weather_envelope_status200_witness :
    get_weather_handle ⟨404, "nf", none⟩ = Except.ok (errorEnvelope "nf") ∧
    get_weather_handle ⟨200, "3", some (Json.num 3)⟩ = Except.ok (Json.num 3) :=
  ⟨(weather_envelope_status200 ⟨404, "nf", none⟩).1 (by decide),
   (weather_envelope_status200 ⟨200, "3", some (Json.num 3)⟩).2 (Json.num 3) rfl rfl⟩

/-- C2: whenever the upstream answers the constructed forecast request
with status 500, the relay itself responds with HTTP status 200 and
the body is the in-band envelope built from the upstream body text. -/
theorem weather_upstream500_inband (lat lon : Rat) (tz body : String) (jb : Option Json)
    (upstream : String → WeatherParams → Response)
    (hup : upstream weatherURL (weatherParams lat lon tz) = ⟨500, body, jb⟩) :
    relayResponse (get_weather upstream lat lon tz) = (200, errorEnvelope body) := by
  simp [get_weather, hup, get_weather_handle, relayResponse]

/-- C2 witness: the theorem evaluated at a concrete upstream that
always answers 500. -/
theorem weather_upstream500_inband_witness :
    relayResponse (get_weather (fun _ _ => ⟨500, "oops", none⟩) 1 2 "auto") =
      (200, errorEnvelope "oops") :=
  weather_upstream500_inband 1 2 "auto" "oops" none (fun _ _ => ⟨500, "oops", none⟩) rfl

/-- C3 (counterexample): an upstream response with success status 200
whose body is not valid JSON makes the decode step raise, so the
handler does not return a value normally. -/
theorem weather_nonjson_raises_counterexample :
    get_weather_handle ⟨200, "hello", none⟩ = Except.error PyExn.jsonDecodeError ∧
    ¬ ∃ j, get_weather_handle ⟨200, "hello", none⟩ = Except.ok j := by
  refine ⟨rfl, ?_⟩
  rintro ⟨j, h⟩
  simp [get_weather_handle] at h

/-- C3 (amended): the handler returns a value normally for every
upstream response whose status is not 200, and for every status-200
response whose body is valid JSON; only a status-200 response with a
non-JSON body raises. -/
theorem weather_returns_normally_amended (r : Response)
    (h : r.status_code ≠ 200 ∨ ∃ j, r.jsonBody = some j) :
    ∃ v, get_weather_handle r = Except.ok v := by
  rcases h with h | ⟨j, hj⟩
  · exact ⟨errorEnvelope r.text, by simp [get_weather_handle, h]⟩
  · by_cases hs : r.status_code = 200
    · exact ⟨j, by simp [get_weather_handle, hs, hj]⟩
    · exact ⟨errorEnvelope r.text, by simp [get_weather_handle, hs]⟩

/-- C3 witness: the amended theorem evaluated at a 404 response. -/
theorem weather_returns_normally_witness :
    ∃ v, get_weather_handle ⟨404, "nf", none⟩ = Except.ok v :=
  weather_returns_normally_amended ⟨404, "nf", none⟩ (Or.inl (by decide))

/-- C4: for every latitude, longitude and timezone, the outbound
request of the weather relay targets the fixed forecast endpoint and
carries exactly the given coordinates, the given timezone (defaulting
to auto), a 7-day forecast window and the three hardcoded comma-joined
field
lists; the handler sends precisely this request upstream. -/
theorem weather_request_construction (lat lon : Rat) (tz : String) :
    weatherURL = "https://api.open-meteo.com/v1/forecast" ∧
    weatherParams lat lon tz =
      { latitude := lat
        longitude := lon
        current := "temperature_2m,apparent_temperature,relative_humidity_2m,is_day,precipitation,wind_speed_10m,wind_direction_10m,weather_code,surface_pressure,cloud_cover"
        hourly := "temperature_2m,relative_humidity_2m,precipitation,cloud_cover,wind_speed_10m"
        daily := "temperature_2m_max,temperature_2m_min,uv_index_max,sunrise,sunset,precipitation_sum"
        forecast_days := 7
        timezone := tz } ∧
    tzDefault = "auto" ∧
    ∀ upstream, get_weather upstream lat lon tz =
      get_weather_handle (upstream weatherURL (weatherParams lat lon tz)) :=
  ⟨rfl, rfl, rfl, fun _ => rfl⟩

/-- C5: for every query text, the search URL ends with the limit-5
parameter, and because the handler returns the upstream document
unmodified, an upstream answer that honours the limit (an array of at
most 5 elements) yields a returned array of at most 5 elements. -/
theorem search_limit5 (q : String) (r : Response) (elems : List Json)
    (upstream : HttpxRequest → Except Unit Response)
    (hup : upstream (searchRequest q) = Except.ok r)
    (hbody : r.jsonBody = some (Json.arr elems))
    (hlim : elems.length ≤ 5) :
    (∃ p, searchURL q = p ++ "&limit=5") ∧
    ∃ out, search_places upstream q = Except.ok (Json.arr out) ∧ out.length ≤ 5 := by
  refine ⟨⟨"https://nominatim.openstreetmap.org/search?format=json&q=" ++ q, rfl⟩, elems, ?_, hlim⟩
  simp [search_places, relayJson, hup, hbody]

/-- C5 witness: the theorem evaluated at query Berlin and a concrete
upstream answering with an empty array. -/
theorem search_limit5_witness :
    (∃ p, searchURL "Berlin" = p ++ "&limit=5") ∧
    ∃ out, search_places (fun _ => Except.ok ⟨200, "[]", some (Json.arr [])⟩) "Berlin" =
      Except.ok (Json.arr out) ∧ out.length ≤ 5 :=
  search_limit5 "Berlin" ⟨200, "[]", some (Json.arr [])⟩ []
    (fun _ => Except.ok ⟨200, "[]", some (Json.arr [])⟩) rfl rfl (by decide)

/-- C6: both nominatim relays attach exactly the fixed identifying
User-Agent header to the outbound request, and whenever the upstream
exchange succeeds with a JSON-decodable body they return the decoded
document unmodified. -/
theorem nominatim_header_and_passthrough (lat lon : Rat) (q : String)
    (upstream : HttpxRequest → Except Unit Response) :
    (reverseRequest lat lon).headers = [("User-Agent", "WeatherApp/1.0")] ∧
    (searchRequest q).headers = [("User-Agent", "WeatherApp/1.0")] ∧
    (∀ r j, upstream (reverseRequest lat lon) = Except.ok r → r.jsonBody = some j →
      reverse_geocode upstream lat lon = Except.ok j) ∧
    (∀ r j, upstream (searchRequest q) = Except.ok r → r.jsonBody = some j →
      search_places upstream q = Except.ok j) := by
  refine ⟨rfl, rfl, ?_, ?_⟩
  · intro r j hup hj
    simp [reverse_geocode, relayJson, hup, hj]
  · intro r j hup hj
    simp [search_places, relayJson, hup, hj]

/-- C6 witness: both handlers evaluated at a concrete upstream whose
body decodes to JSON null. -/
theorem nominatim_header_and_passthrough_witness :
    reverse_geocode (fun _ => Except.ok ⟨200, "null", some Json.null⟩) 1 2 =
      Except.ok Json.null ∧
    search_places (fun _ => Except.ok ⟨200, "null", some Json.null⟩) "Berlin" =
      Except.ok Json.null :=
  ⟨(nominatim_header_and_passthrough 1 2 "Berlin"
      (fun _ => Except.ok ⟨200, "null", some Json.null⟩)).2.2.1
      ⟨200, "null", some Json.null⟩ Json.null rfl rfl,
   (nominatim_header_and_passthrough 1 2 "Berlin"
      (fun _ => Except.ok ⟨200, "null", some Json.null⟩)).2.2.2
      ⟨200, "null", some Json.null⟩ Json.null rfl rfl⟩

/-- C7: the nominatim handlers intercept nothing: a network failure of
the client call and a body that fails JSON decoding (regardless of
status, so in particular a non-success status with a non-JSON body)
each escape as an exception, never as a returned error value, and an
escaped exception becomes the generic internal-server-error response
of the relay. -/
theorem nominatim_no_interception (lat lon : Rat) (q : String)
    (upstream : HttpxRequest → Except Unit Response) :
    (upstream (reverseRequest lat lon) = Except.error () →
      reverse_geocode upstream lat lon = Except.error PyExn.networkError) ∧
    (∀ r, upstream (reverseRequest lat lon) = Except.ok r → r.jsonBody = none →
      reverse_geocode upstream lat lon = Except.error PyExn.jsonDecodeError) ∧
    (upstream (searchRequest q) = Except.error () →
      search_places upstream q = Except.error PyExn.networkError) ∧
    (∀ r, upstream (searchRequest q) = Except.ok r → r.jsonBody = none →
      search_places upstream q = Except.error PyExn.jsonDecodeError) ∧
    (∀ e, relayResponse (Except.error e) =
      (500, Json.obj [("detail", Json.str "Internal Server Error")])) := by
  refine ⟨?_, ?_, ?_, ?_, fun e => rfl⟩
  · intro hup
    simp [reverse_geocode, relayJson, hup]
  · intro r hup hj
    simp [reverse_geocode, relayJson, hup, hj]
  · intro hup
    simp [search_places, relayJson, hup]
  · intro r hup hj
    simp [search_places, relayJson, hup, hj]

/-- C7 witness: a failing upstream exchange evaluated at concrete
inputs: the network failure escapes the reverse handler and the
non-JSON 502 body escapes the search handler. -/
theorem nominatim_no_interception_witness :
    reverse_geocode (fun _ => Except.error ()) 1 2 = Except.error PyExn.networkError ∧
    search_places (fun _ => Except.ok ⟨502, "Bad Gateway", none⟩) "Berlin" =
      Except.error PyExn.jsonDecodeError :=
  ⟨(nominatim_no_interception 1 2 "Berlin" (fun _ => Except.error ())).1 rfl,
   (nominatim_no_interception 1 2 "Berlin"
      (fun _ => Except.ok ⟨502, "Bad Gateway", none⟩)).2.2.2.1
      ⟨502, "Bad Gateway", none⟩ rfl rfl⟩

/-- C8: the single cross-origin configuration allows all origins, all
methods, all headers and credentials, and, being installed at the
application level, it applies to every one of the three routes
uniformly. -/
theorem cors_uniform :
    corsConfig = ⟨["*"], true, ["*"], ["*"]⟩ ∧
    app.routes = ["/weather", "/api/reverse", "/api/search"] ∧
    ∀ route, route ∈ app.routes → Middleware.cors corsConfig ∈ middlewareOn app route := by
  refine ⟨rfl, rfl, fun route _ => ?_⟩
  simp [middlewareOn, app]

/-- C8 witness: the uniform-application conjunct evaluated at the
weather route. -/
theorem cors_uniform_witness :
    Middleware.cors corsConfig ∈ middlewareOn app "/weather" :=
  cors_uniform.2.2 "/weather" (by simp [app])

/-- C9 (counterexample): latitude 200 and longitude 300 lie outside
the claimed ranges, yet both endpoints accept them, forward the values
upstream as-is, and complete normally: no range constraint exists in
the code. -/
theorem latlon_range_counterexample :
    ¬ ((200 : Rat) ≤ 90) ∧ ¬ ((300 : Rat) ≤ 180) ∧
    (weatherParams 200 300 "auto").latitude = 200 ∧
    (weatherParams 200 300 "auto").longitude = 300 ∧
    get_weather (fun _ _ => ⟨200, "ok", some Json.null⟩) 200 300 "auto" =
      Except.ok Json.null ∧
    (reverseRequest 200 300).url = reverseURL 200 300 ∧
    reverse_geocode (fun _ => Except.ok ⟨200, "ok", some Json.null⟩) 200 300 =
      Except.ok Json.null := by
  refine ⟨by norm_num, by norm_num, rfl, rfl, rfl, rfl, rfl⟩

/-- C9 (amended): the endpoints declare the coordinates as plain
floats with no range constraint: every numeric value whatsoever is
accepted and forwarded upstream unchanged, in the forecast parameter
dictionary and in the reverse-geocoding URL alike. -/
theorem latlon_forwarded_amended (lat lon : Rat) (tz : String) :
    (weatherParams lat lon tz).latitude = lat ∧
    (weatherParams lat lon tz).longitude = lon ∧
    (reverseRequest lat lon).url =
      "https://nominatim.openstreetmap.org/reverse?format=json&lat=" ++ pyStr lat
        ++ "&lon=" ++ pyStr lon :=
  ⟨rfl, rfl, rfl⟩

/-- C10: the search URL is the raw concatenation of the fixed base,
the query text and the limit suffix with no percent-encoding, so a
query containing URL metacharacters injects parameters: at the
concrete query Berlin&limit=50 the upstream reads an extra overriding
limit pair; likewise the reverse URL splices the coordinates in
unencoded. -/
theorem raw_interpolation_injection (q : String) (lat lon : Rat) :
    searchURL q =
      "https://nominatim.openstreetmap.org/search?format=json&q=" ++ q ++ "&limit=5" ∧
    (searchRequest q).url = searchURL q ∧
    queryPairs (searchURL "Berlin&limit=50") =
      [("format", "json"), ("q", "Berlin"), ("limit", "50"), ("limit", "5")] ∧
    reverseURL lat lon =
      "https://nominatim.openstreetmap.org/reverse?format=json&lat=" ++ pyStr lat
        ++ "&lon=" ++ pyStr lon ∧
    (reverseRequest lat lon).url = reverseURL lat lon :=
  ⟨rfl, rfl, by decide, rfl, rfl⟩
